import Mathlib

/-!
Verification development for the GeoPackage WKB geometry codec of gpkg-rs
(src/gpkg/src/gpkg_wkb.rs, src/gpkg/src/types.rs, src/gpkg/src/result.rs).

Modelling conventions:
- Bytes are `Nat` values (< 256 in every buffer the code produces); byte
  buffers are `List Nat` consumed from the front, standing for the
  `std::io::Cursor` the source reads from.
- An `f64` coordinate is represented by its 64-bit IEEE-754 bit pattern as a
  `Nat`. The codec never performs floating-point arithmetic: it only moves the
  eight bytes of each double, so the bit pattern is a complete model and
  bit-exact equality is `Nat` equality.
- A decode step yields a `DOutcome`: `ok`, an `Err` return of the crate's
  `Error` enum, or `panic`, which models a Rust panic/abort (explicit
  `panic!`, slice-index out of bounds, or capacity overflow).
- `std::io` read failures (unexpected EOF) surface as `Error.GeomDecodeError`,
  the crate's decode-error umbrella.
-/

namespace GpkgWKB

/-! ## Byte-level primitives -/

/-- Little-endian byte decomposition of `n` into `w` bytes (low byte first),
as produced by `to_le_bytes` on a `w`-byte integer (wrapping modulo `256^w`). -/
def toLEBytes : Nat → Nat → List Nat
  | 0, _ => []
  | w + 1, n => n % 256 :: toLEBytes w (n / 256)

/-- Little-endian recomposition of a byte list into a value. -/
def fromLEBytes : List Nat → Nat
  | [] => 0
  | b :: bs => b + 256 * fromLEBytes bs

/-- Bytes emitted by `write_u32::<LittleEndian>` (u32 values wrap mod `2^32`). -/
def u32le (n : Nat) : List Nat := toLEBytes 4 n

/-- Bytes emitted by `f64::to_le_bytes` applied to the bit pattern `n`. -/
def f64le (n : Nat) : List Nat := toLEBytes 8 n

/-- The two byte orders of the WKB body, selected by the body's marker byte
(0 = `BigEndian`, 1 = `LittleEndian` in the source). -/
inductive Endian
  | big
  | little
deriving DecidableEq

/-- The WKB byte-order marker value for each byte order. -/
def markerByte : Endian → Nat
  | .big => 0
  | .little => 1

/-- Four bytes of a u32 in byte order `e`. -/
def u32bytes : Endian → Nat → List Nat
  | .little, n => toLEBytes 4 n
  | .big, n => (toLEBytes 4 n).reverse

/-- Eight bytes of an f64 bit pattern in byte order `e`. -/
def f64bytes : Endian → Nat → List Nat
  | .little, n => toLEBytes 8 n
  | .big, n => (toLEBytes 8 n).reverse

/-- Value carried by a byte list interpreted in byte order `e`. -/
def valOfBytes : Endian → List Nat → Nat
  | .little, bs => fromLEBytes bs
  | .big, bs => fromLEBytes bs.reverse

/-! ## Error and outcome types -/

/-- The codec-relevant variants of the crate's `Error` enum
(src/gpkg/src/result.rs); the SQLite-layer variants are never produced by the
codec and are omitted. -/
inductive Error
  | GeomDecodeError
  | GeomEncodeError
  | UnsupportedGeometryType
deriving DecidableEq

/-- Outcome of running a fallible decode step: a value, an `Err` return, or a
Rust panic/abort. -/
inductive DOutcome (α : Type)
  | ok (a : α)
  | err (e : Error)
  | panic
deriving DecidableEq

instance : Monad DOutcome where
  pure := .ok
  bind m f := match m with
    | .ok a => f a
    | .err e => .err e
    | .panic => .panic

@[simp] theorem ok_bind {α β : Type} (a : α) (f : α → DOutcome β) :
    (DOutcome.ok a >>= f) = f a := rfl

@[simp] theorem err_bind {α β : Type} (e : Error) (f : α → DOutcome β) :
    (DOutcome.err e >>= f) = DOutcome.err e := rfl

@[simp] theorem panic_bind {α β : Type} (f : α → DOutcome β) :
    (DOutcome.panic >>= f) = (DOutcome.panic : DOutcome β) := rfl

@[simp] theorem pure_eq_ok {α : Type} (a : α) :
    (pure a : DOutcome α) = DOutcome.ok a := rfl

/-! ## Geometry value model (geo_types values, coordinates as f64 bit patterns) -/

/-- A coordinate pair; `geo_types::Coordinate<f64>` and `geo_types::Point<f64>`
both carry exactly these two doubles. -/
structure Coord where
  x : Nat
  y : Nat
deriving DecidableEq

/-- A `geo_types::LineString<f64>`: an ordered coordinate sequence. -/
structure LineString where
  coords : List Coord
deriving DecidableEq

/-- A `geo_types::Polygon<f64>`: one exterior ring and the interior rings. -/
structure Polygon where
  exterior : LineString
  interiors : List LineString
deriving DecidableEq

abbrev MultiPoint := List Coord
abbrev MultiLineString := List LineString
abbrev MultiPolygon := List Polygon

/-- The `geo_types::Geometry<f64>` variants the codec supports.  The source
enum has further variants (Line, Rect, Triangle) that the codec maps to the
same unsupported-type arm as collections on write; they carry no codec
behaviour of their own and are omitted. -/
inductive Geometry
  | point (p : Coord)
  | lineString (ls : LineString)
  | polygon (pg : Polygon)
  | multiPoint (mp : MultiPoint)
  | multiLineString (mls : MultiLineString)
  | multiPolygon (mpg : MultiPolygon)
  | geometryCollection (gs : List Geometry)

/-- The Z-dimension point type `GPKGPointZ` (src/gpkg/src/types.rs). -/
structure GPKGPointZ where
  x : Nat
  y : Nat
  z : Nat
deriving DecidableEq

abbrev GPKGLineStringZ := List GPKGPointZ

/-! ## Machine-width well-formedness

The source stores coordinates in `f64` (64-bit patterns) and element counts in
`usize` truncated to `u32` on write; a value is representable exactly when its
bit patterns fit 64 bits and its counts fit 32 bits. -/

abbrev Coord.wf (c : Coord) : Prop := c.x < 2 ^ 64 ∧ c.y < 2 ^ 64

abbrev LineString.wf (l : LineString) : Prop :=
  l.coords.length < 2 ^ 32 ∧ ∀ c ∈ l.coords, c.wf

abbrev Polygon.wf (p : Polygon) : Prop :=
  p.interiors.length + 1 < 2 ^ 32 ∧ p.exterior.wf ∧ ∀ rg ∈ p.interiors, rg.wf

abbrev wfMultiPoint (m : MultiPoint) : Prop :=
  m.length < 2 ^ 32 ∧ ∀ c ∈ m, c.wf

abbrev wfMultiLineString (m : MultiLineString) : Prop :=
  m.length < 2 ^ 32 ∧ ∀ l ∈ m, l.wf

abbrev wfMultiPolygon (m : MultiPolygon) : Prop :=
  m.length < 2 ^ 32 ∧ ∀ p ∈ m, p.wf

abbrev GPKGPointZ.wf (p : GPKGPointZ) : Prop :=
  p.x < 2 ^ 64 ∧ p.y < 2 ^ 64 ∧ p.z < 2 ^ 64

abbrev wfLineStringZ (l : GPKGLineStringZ) : Prop :=
  l.length < 2 ^ 32 ∧ ∀ p ∈ l, p.wf

/-! ## Source writers (WKBBytesRaw::write_as_bytes): always little-endian -/

/-- Coordinate/Point `write_as_bytes`: x then y as little-endian doubles. -/
def Coord.writeAsBytes (c : Coord) : List Nat := f64le c.x ++ f64le c.y

/-- LineString `write_as_bytes`: LE point count then the coordinate pairs. -/
def LineString.writeAsBytes (l : LineString) : List Nat :=
  u32le l.coords.length ++ (l.coords.map Coord.writeAsBytes).flatten

/-- Polygon `write_as_bytes`: LE ring count `interiors.len() + 1`, the exterior
ring, then each interior ring, all as untagged LineString bodies. -/
def Polygon.writeAsBytes (p : Polygon) : List Nat :=
  u32le (p.interiors.length + 1) ++ p.exterior.writeAsBytes
    ++ (p.interiors.map LineString.writeAsBytes).flatten

/-- MultiPoint `write_as_bytes`: LE element count then untagged point bodies. -/
def writeMultiPointBytes (m : MultiPoint) : List Nat :=
  u32le m.length ++ (m.map Coord.writeAsBytes).flatten

/-- MultiLineString `write_as_bytes`. -/
def writeMultiLineStringBytes (m : MultiLineString) : List Nat :=
  u32le m.length ++ (m.map LineString.writeAsBytes).flatten

/-- MultiPolygon `write_as_bytes`. -/
def writeMultiPolygonBytes (m : MultiPolygon) : List Nat :=
  u32le m.length ++ (m.map Polygon.writeAsBytes).flatten

/-- GPKGPointZ `write_as_bytes`: x, y, z as little-endian doubles. -/
def GPKGPointZ.writeAsBytes (p : GPKGPointZ) : List Nat :=
  f64le p.x ++ f64le p.y ++ f64le p.z

/-- GPKGLineStringZ `write_as_bytes`. -/
def writeLineStringZBytes (l : GPKGLineStringZ) : List Nat :=
  u32le l.length ++ (l.map GPKGPointZ.writeAsBytes).flatten

/-! ## Source writers (FullWKB::write_as_wkb) -/

/-- The `full_wkb!` macro's `write_as_wkb`: marker byte 1 (always little
endian), the LE type code, then the raw body. -/
def writeFullWKB (code : Nat) (body : List Nat) : List Nat :=
  1 :: (u32le code ++ body)

def writePointWKB (p : Coord) : List Nat := writeFullWKB 1 p.writeAsBytes
def writeLineStringWKB (l : LineString) : List Nat := writeFullWKB 2 l.writeAsBytes
def writePolygonWKB (p : Polygon) : List Nat := writeFullWKB 3 p.writeAsBytes
def writeMultiPointWKB (m : MultiPoint) : List Nat :=
  writeFullWKB 4 (writeMultiPointBytes m)
def writeMultiLineStringWKB (m : MultiLineString) : List Nat :=
  writeFullWKB 5 (writeMultiLineStringBytes m)
def writeMultiPolygonWKB (m : MultiPolygon) : List Nat :=
  writeFullWKB 6 (writeMultiPolygonBytes m)
def writePointZWKB (p : GPKGPointZ) : List Nat := writeFullWKB 1001 p.writeAsBytes
def writeLineStringZWKB (l : GPKGLineStringZ) : List Nat :=
  writeFullWKB 1002 (writeLineStringZBytes l)

/-- `FullWKB::write_as_wkb` for `geo_types::Geometry<f64>`: the six basic
variants delegate to their tagged writers; every other variant — including
`GeometryCollection` — hits the catch-all arm and returns
`UnsupportedGeometryType`. -/
def Geometry.writeAsWKB : Geometry → Except Error (List Nat)
  | .point p => .ok (writePointWKB p)
  | .lineString l => .ok (writeLineStringWKB l)
  | .polygon p => .ok (writePolygonWKB p)
  | .multiPoint m => .ok (writeMultiPointWKB m)
  | .multiLineString m => .ok (writeMultiLineStringWKB m)
  | .multiPolygon m => .ok (writeMultiPolygonWKB m)
  | .geometryCollection _ => .error .UnsupportedGeometryType

/-- `FullWKB::write_as_wkb` for `geo_types::GeometryCollection<f64>`: each
member is written by the Geometry writer in order, with no collection marker
byte, no type code 7, and no member count. -/
def writeGeometryCollectionWKB : List Geometry → Except Error (List Nat)
  | [] => .ok []
  | g :: gs => do
      let b ← g.writeAsWKB
      let bs ← writeGeometryCollectionWKB gs
      pure (b ++ bs)

/-! ## GeoPackage header and GeoPackageWKB::to_wkb -/

/-- The header `to_wkb` always writes: magic "GP", version 0, flags byte
`0b00000001` (little-endian body, no envelope, not empty, not extended), and
the SRS id 4326 as a little-endian i32.  The encoder takes no SRS input. -/
def gpkgHeader : List Nat := [0x47, 0x50, 0x00, 0x01] ++ u32le 4326

def toWKBPoint (p : Coord) : List Nat := gpkgHeader ++ writePointWKB p
def toWKBLineString (l : LineString) : List Nat := gpkgHeader ++ writeLineStringWKB l
def toWKBPolygon (p : Polygon) : List Nat := gpkgHeader ++ writePolygonWKB p
def toWKBMultiPoint (m : MultiPoint) : List Nat := gpkgHeader ++ writeMultiPointWKB m
def toWKBMultiLineString (m : MultiLineString) : List Nat :=
  gpkgHeader ++ writeMultiLineStringWKB m
def toWKBMultiPolygon (m : MultiPolygon) : List Nat := gpkgHeader ++ writeMultiPolygonWKB m
def toWKBPointZ (p : GPKGPointZ) : List Nat := gpkgHeader ++ writePointZWKB p
def toWKBLineStringZ (l : GPKGLineStringZ) : List Nat := gpkgHeader ++ writeLineStringZWKB l

/-- `to_wkb` for `GPKGGeometryCollection`: the header, then the collection
body if it was written successfully (the source's `?` operator). -/
def toWKBGeometryCollection (gs : List Geometry) : Except Error (List Nat) :=
  match writeGeometryCollectionWKB gs with
  | .ok b => .ok (gpkgHeader ++ b)
  | .error er => .error er

/-- `to_wkb` for `GPKGGeometry`: the header, then the Geometry body if it was
written successfully (the source's `?` operator). -/
def toWKBGeometry (g : Geometry) : Except Error (List Nat) :=
  match g.writeAsWKB with
  | .ok b => .ok (gpkgHeader ++ b)
  | .error er => .error er

/-! ## Reading primitives (the ReadBytesExt accessors over the cursor) -/

/-- `read_u8`: one byte off the front, EOF surfaces as the decode error. -/
def readU8 : List Nat → DOutcome (Nat × List Nat)
  | [] => .err .GeomDecodeError
  | b :: s => .ok (b, s)

/-- Read exactly `n` bytes off the front. -/
def readBytesN : Nat → List Nat → DOutcome (List Nat × List Nat)
  | 0, s => .ok ([], s)
  | _ + 1, [] => .err .GeomDecodeError
  | n + 1, b :: s => do
      let (bs, s1) ← readBytesN n s
      pure (b :: bs, s1)

/-- `read_u32::<T>` in byte order `e`. -/
def readU32 (e : Endian) (s : List Nat) : DOutcome (Nat × List Nat) := do
  let (bs, s1) ← readBytesN 4 s
  pure (valOfBytes e bs, s1)

/-- `read_f64::<T>` in byte order `e`, yielding the 64-bit pattern. -/
def readF64 (e : Endian) (s : List Nat) : DOutcome (Nat × List Nat) := do
  let (bs, s1) ← readBytesN 8 s
  pure (valOfBytes e bs, s1)

/-- `for _ in 0..n { out.push(read_one(r)?) }`: read `n` items in sequence. -/
def readN {α : Type} (rd : List Nat → DOutcome (α × List Nat)) :
    Nat → List Nat → DOutcome (List α × List Nat)
  | 0, s => .ok ([], s)
  | n + 1, s => do
      let (a, s1) ← rd s
      let (as, s2) ← readN rd n s1
      pure (a :: as, s2)

/-! ## Source readers (WKBBytesRaw::read_from_bytes), byte order `e` -/

/-- Coordinate/Point `read_from_bytes`: x then y. -/
def readCoordBytes (e : Endian) (s : List Nat) : DOutcome (Coord × List Nat) := do
  let (x, s1) ← readF64 e s
  let (y, s2) ← readF64 e s1
  pure (⟨x, y⟩, s2)

/-- LineString `read_from_bytes`: point count, then that many coordinates. -/
def readLineStringBytes (e : Endian) (s : List Nat) : DOutcome (LineString × List Nat) := do
  let (n, s1) ← readU32 e s
  let (cs, s2) ← readN (readCoordBytes e) n s1
  pure (⟨cs⟩, s2)

/-- Polygon `read_from_bytes`: ring count, the exterior ring, then the
interior rings (`for _ in 1..num_rings`, i.e. `num_rings - 1` of them).
When the ring count is 0, the source's
`Vec::with_capacity(num_rings as usize - 1)` underflows to `usize::MAX` and
`with_capacity` aborts with a capacity overflow — modelled as `.panic`; note
this sits after the exterior-ring read, exactly as in the source. -/
def readPolygonBytes (e : Endian) (s : List Nat) : DOutcome (Polygon × List Nat) := do
  let (n, s1) ← readU32 e s
  let (ext, s2) ← readLineStringBytes e s1
  if n = 0 then .panic
  else do
    let (ints, s3) ← readN (readLineStringBytes e) (n - 1) s2
    pure (⟨ext, ints⟩, s3)

/-- MultiPoint `read_from_bytes`. -/
def readMultiPointBytes (e : Endian) (s : List Nat) : DOutcome (MultiPoint × List Nat) := do
  let (n, s1) ← readU32 e s
  readN (readCoordBytes e) n s1

/-- MultiLineString `read_from_bytes`. -/
def readMultiLineStringBytes (e : Endian) (s : List Nat) :
    DOutcome (MultiLineString × List Nat) := do
  let (n, s1) ← readU32 e s
  readN (readLineStringBytes e) n s1

/-- MultiPolygon `read_from_bytes`. -/
def readMultiPolygonBytes (e : Endian) (s : List Nat) :
    DOutcome (MultiPolygon × List Nat) := do
  let (n, s1) ← readU32 e s
  readN (readPolygonBytes e) n s1

/-- GPKGPointZ `read_from_bytes`: x, y, z. -/
def readPointZBytes (e : Endian) (s : List Nat) : DOutcome (GPKGPointZ × List Nat) := do
  let (x, s1) ← readF64 e s
  let (y, s2) ← readF64 e s1
  let (z, s3) ← readF64 e s2
  pure (⟨x, y, z⟩, s3)

/-- GPKGLineStringZ `read_from_bytes`. -/
def readLineStringZBytes (e : Endian) (s : List Nat) :
    DOutcome (GPKGLineStringZ × List Nat) := do
  let (n, s1) ← readU32 e s
  readN (readPointZBytes e) n s1

/-! ## Source readers (FullWKB::read_from_wkb) -/

/-- The endianness tag parse shared by every `read_from_wkb`: marker byte 0 is
big-endian, 1 little-endian, anything else is `GeomDecodeError`. -/
def readEndianTag (b : Nat) : DOutcome Endian :=
  match b with
  | 0 => .ok .big
  | 1 => .ok .little
  | _ => .err .GeomDecodeError

/-- The `full_wkb!` macro's `read_from_wkb`: endianness tag, type code in that
byte order, check against the statically expected `code` (mismatch is
`UnsupportedGeometryType`), then the raw body in that byte order. -/
def readFullWKB {α : Type} (code : Nat)
    (readBody : Endian → List Nat → DOutcome (α × List Nat))
    (s : List Nat) : DOutcome (α × List Nat) := do
  let (b0, s1) ← readU8 s
  let e ← readEndianTag b0
  let (t, s2) ← readU32 e s1
  if t ≠ code then .err .UnsupportedGeometryType
  else readBody e s2

def readPointWKB : List Nat → DOutcome (Coord × List Nat) :=
  readFullWKB 1 readCoordBytes
def readLineStringWKB : List Nat → DOutcome (LineString × List Nat) :=
  readFullWKB 2 readLineStringBytes
def readPolygonWKB : List Nat → DOutcome (Polygon × List Nat) :=
  readFullWKB 3 readPolygonBytes
def readMultiPointWKB : List Nat → DOutcome (MultiPoint × List Nat) :=
  readFullWKB 4 readMultiPointBytes
def readMultiLineStringWKB : List Nat → DOutcome (MultiLineString × List Nat) :=
  readFullWKB 5 readMultiLineStringBytes
def readMultiPolygonWKB : List Nat → DOutcome (MultiPolygon × List Nat) :=
  readFullWKB 6 readMultiPolygonBytes
def readPointZWKB : List Nat → DOutcome (GPKGPointZ × List Nat) :=
  readFullWKB 1001 readPointZBytes
def readLineStringZWKB : List Nat → DOutcome (GPKGLineStringZ × List Nat) :=
  readFullWKB 1002 readLineStringZBytes

/-- `FullWKB::read_from_wkb` for `geo_types::Geometry<f64>`, the polymorphic
dispatch reader. `fuel` is a termination device only: the entry point
`readGeometryWKB` supplies more fuel than the stream length, and every
recursive member read first consumes at least the marker and type bytes, so
the fuel-exhausted `.panic` arm (standing for the source's unbounded
recursion) is unreachable from the entry point.

In the GeometryCollection arm the source reads the member count with
`LittleEndian` in BOTH endianness match arms, hence the unconditional
`Endian.little` below. -/
def readGeometryWKBF : Nat → List Nat → DOutcome (Geometry × List Nat)
  | 0, _ => .panic
  | fuel + 1, s => do
      let (b0, s1) ← readU8 s
      let e ← readEndianTag b0
      let (t, s2) ← readU32 e s1
      match t with
      | 1 => do
          let (p, s3) ← readCoordBytes e s2
          pure (.point p, s3)
      | 2 => do
          let (l, s3) ← readLineStringBytes e s2
          pure (.lineString l, s3)
      | 3 => do
          let (p, s3) ← readPolygonBytes e s2
          pure (.polygon p, s3)
      | 4 => do
          let (m, s3) ← readMultiPointBytes e s2
          pure (.multiPoint m, s3)
      | 5 => do
          let (m, s3) ← readMultiLineStringBytes e s2
          pure (.multiLineString m, s3)
      | 6 => do
          let (m, s3) ← readMultiPolygonBytes e s2
          pure (.multiPolygon m, s3)
      | 7 => do
          let (n, s3) ← readU32 Endian.little s2
          let (gs, s4) ← readN (readGeometryWKBF fuel) n s3
          pure (.geometryCollection gs, s4)
      | _ => .err .UnsupportedGeometryType

/-- Entry point for `Geometry::read_from_wkb`. -/
def readGeometryWKB (s : List Nat) : DOutcome (Geometry × List Nat) :=
  readGeometryWKBF (s.length + 1) s

/-- `FullWKB::read_from_wkb` for `geo_types::GeometryCollection<f64>`:
endianness tag, type code (must be 7), the member count in the DECLARED byte
order (unlike the polymorphic reader), then that many members through the
full self-describing Geometry reader. -/
def readGeometryCollectionWKB (s : List Nat) : DOutcome (List Geometry × List Nat) := do
  let (b0, s1) ← readU8 s
  let e ← readEndianTag b0
  let (t, s2) ← readU32 e s1
  if t ≠ 7 then .err .UnsupportedGeometryType
  else do
    let (n, s3) ← readU32 e s2
    readN readGeometryWKB n s3

/-! ## Header flags and GeoPackageWKB::from_wkb -/

/-- The envelope indicator decoded from flags bits 1-3
(`GPKGGeomFlags::envelope`). -/
inductive EnvelopeType
  | Missing
  | XY
  | XYM
  | XYZ
  | XYZM
deriving DecidableEq

/-- The flags byte fields (`GPKGGeomFlags`). -/
structure GPKGGeomFlags where
  extended : Bool
  emptyGeom : Bool
  littleEndian : Bool
  envelope : EnvelopeType

/-- `GPKGGeomFlags::from_byte`. `none` models the source's explicit
`panic!("invalid envelope flag, ...")` on envelope codes 5, 6, 7. -/
def GPKGGeomFlags.fromByte (b : Nat) : Option GPKGGeomFlags :=
  let extended := decide (0 < (b >>> 5) &&& 1)
  let emptyGeom := decide (0 < (b >>> 4) &&& 1)
  let littleEndian := decide (0 < b &&& 1)
  match (b >>> 1) &&& 7 with
  | 0 => some ⟨extended, emptyGeom, littleEndian, .Missing⟩
  | 1 => some ⟨extended, emptyGeom, littleEndian, .XY⟩
  | 2 => some ⟨extended, emptyGeom, littleEndian, .XYZ⟩
  | 3 => some ⟨extended, emptyGeom, littleEndian, .XYM⟩
  | 4 => some ⟨extended, emptyGeom, littleEndian, .XYZM⟩
  | _ => none

/-- The envelope byte lengths used by `from_wkb`:
Missing 0, XY 32, XYZ | XYM 48, XYZM 64. -/
def envelopeByteLength : EnvelopeType → Nat
  | .Missing => 0
  | .XY => 32
  | .XYZ => 48
  | .XYM => 48
  | .XYZM => 64

/-- Run a `read_from_wkb` body reader on a stream and keep only the value,
as `Ok(T::read_from_wkb(&mut bytes_cursor)?)` does. -/
def runBody {α : Type} (readBody : List Nat → DOutcome (α × List Nat))
    (s : List Nat) : DOutcome α :=
  match readBody s with
  | .ok (a, _) => .ok a
  | .err e => .err e
  | .panic => .panic

/-- `GeoPackageWKB::from_wkb`, generic in the `read_from_wkb` of the target
type. `.panic` models the slice-index panics of `bytes[3]`, `bytes[4..8]` and
`bytes[geom_start..]` on too-short buffers, and the flags panic. The SRS id
is read in the flags byte order and discarded, as in the source. -/
def fromWKB {α : Type} (readBody : List Nat → DOutcome (α × List Nat))
    (bytes : List Nat) : DOutcome α :=
  match bytes[3]? with
  | none => .panic
  | some fb =>
    match GPKGGeomFlags.fromByte fb with
    | none => .panic
    | some flags =>
      if bytes.length < 8 then .panic
      else
        let _srs := valOfBytes (if flags.littleEndian then .little else .big)
          ((bytes.drop 4).take 4)
        let geomStart := 8 + envelopeByteLength flags.envelope
        if bytes.length < geomStart then .panic
        else runBody readBody (bytes.drop geomStart)

/-! ## Spec-side constructions for the cross-endianness property (§8 of the
spec): the manually constructed WKB body of a geometry with every multi-byte
field in byte order `e`.  For `e = little` these coincide definitionally with
the source writers above; for `e = big` they are the claim's hand-built
big-endian buffers. The collection body is the spec-conformant count-prefixed
framing with fully tagged members. -/

def mkCoordBody (e : Endian) (c : Coord) : List Nat := f64bytes e c.x ++ f64bytes e c.y

def mkLineStringBody (e : Endian) (l : LineString) : List Nat :=
  u32bytes e l.coords.length ++ (l.coords.map (mkCoordBody e)).flatten

def mkPolygonBody (e : Endian) (p : Polygon) : List Nat :=
  u32bytes e (p.interiors.length + 1) ++ mkLineStringBody e p.exterior
    ++ (p.interiors.map (mkLineStringBody e)).flatten

def mkMultiPointBody (e : Endian) (m : MultiPoint) : List Nat :=
  u32bytes e m.length ++ (m.map (mkCoordBody e)).flatten

def mkMultiLineStringBody (e : Endian) (m : MultiLineString) : List Nat :=
  u32bytes e m.length ++ (m.map (mkLineStringBody e)).flatten

def mkMultiPolygonBody (e : Endian) (m : MultiPolygon) : List Nat :=
  u32bytes e m.length ++ (m.map (mkPolygonBody e)).flatten

def mkPointZBody (e : Endian) (p : GPKGPointZ) : List Nat :=
  f64bytes e p.x ++ f64bytes e p.y ++ f64bytes e p.z

def mkLineStringZBody (e : Endian) (l : GPKGLineStringZ) : List Nat :=
  u32bytes e l.length ++ (l.map (mkPointZBody e)).flatten

/-- A tagged WKB item in byte order `e`: marker byte, type code, body. -/
def mkTagged (e : Endian) (code : Nat) (body : List Nat) : List Nat :=
  markerByte e :: (u32bytes e code ++ body)

/-- The wire type code of each geometry kind (the dispatch table). -/
def Geometry.code : Geometry → Nat
  | .point _ => 1
  | .lineString _ => 2
  | .polygon _ => 3
  | .multiPoint _ => 4
  | .multiLineString _ => 5
  | .multiPolygon _ => 6
  | .geometryCollection _ => 7

mutual

/-- The spec-conformant tagged encoding of a Geometry in byte order `e`. -/
def mkTaggedGeometry (e : Endian) : Geometry → List Nat
  | .point p => mkTagged e 1 (mkCoordBody e p)
  | .lineString l => mkTagged e 2 (mkLineStringBody e l)
  | .polygon p => mkTagged e 3 (mkPolygonBody e p)
  | .multiPoint m => mkTagged e 4 (mkMultiPointBody e m)
  | .multiLineString m => mkTagged e 5 (mkMultiLineStringBody e m)
  | .multiPolygon m => mkTagged e 6 (mkMultiPolygonBody e m)
  | .geometryCollection gs => mkTagged e 7 (u32bytes e gs.length ++ mkTaggedGeomList e gs)

/-- Concatenated tagged encodings of collection members. -/
def mkTaggedGeomList (e : Endian) : List Geometry → List Nat
  | [] => []
  | g :: gs => mkTaggedGeometry e g ++ mkTaggedGeomList e gs

end

/-! ## Byte-level inversion lemmas -/

theorem toLEBytes_length (w n : Nat) : (toLEBytes w n).length = w := by
  induction w generalizing n with
  | zero => rfl
  | succ w ih => simp [toLEBytes, ih]

theorem fromLEBytes_toLEBytes (w n : Nat) :
    fromLEBytes (toLEBytes w n) = n % 256 ^ w := by
  induction w generalizing n with
  | zero => simp [toLEBytes, fromLEBytes, Nat.mod_one]
  | succ w ih =>
      have h : 256 ^ (w + 1) = 256 * 256 ^ w := by ring
      simp [toLEBytes, fromLEBytes, ih, h, Nat.mod_mul]

theorem u32bytes_length (e : Endian) (n : Nat) : (u32bytes e n).length = 4 := by
  cases e <;> simp [u32bytes, toLEBytes_length]

theorem f64bytes_length (e : Endian) (n : Nat) : (f64bytes e n).length = 8 := by
  cases e <;> simp [f64bytes, toLEBytes_length]

theorem valOfBytes_u32bytes (e : Endian) (n : Nat) :
    valOfBytes e (u32bytes e n) = n % 2 ^ 32 := by
  have h : (256 : Nat) ^ 4 = 2 ^ 32 := by norm_num
  cases e <;> simp [valOfBytes, u32bytes, fromLEBytes_toLEBytes, h]

theorem valOfBytes_f64bytes (e : Endian) (n : Nat) :
    valOfBytes e (f64bytes e n) = n % 2 ^ 64 := by
  have h : (256 : Nat) ^ 8 = 2 ^ 64 := by norm_num
  cases e <;> simp [valOfBytes, f64bytes, fromLEBytes_toLEBytes, h]

theorem readBytesN_append (l r : List Nat) :
    readBytesN l.length (l ++ r) = .ok (l, r) := by
  induction l with
  | nil => rfl
  | cons b bs ih => simp [readBytesN, ih]

theorem readU32_bytes (e : Endian) (n : Nat) (h : n < 2 ^ 32) (r : List Nat) :
    readU32 e (u32bytes e n ++ r) = .ok (n, r) := by
  have hl : (u32bytes e n).length = 4 := u32bytes_length e n
  have hm : n % 2 ^ 32 = n := Nat.mod_eq_of_lt h
  simp [readU32, ← hl, readBytesN_append, valOfBytes_u32bytes, hm]
  omega

theorem readF64_bytes (e : Endian) (n : Nat) (h : n < 2 ^ 64) (r : List Nat) :
    readF64 e (f64bytes e n ++ r) = .ok (n, r) := by
  have hl : (f64bytes e n).length = 8 := f64bytes_length e n
  have hm : n % 2 ^ 64 = n := Nat.mod_eq_of_lt h
  simp [readF64, ← hl, readBytesN_append, valOfBytes_f64bytes, hm]
  omega

theorem readN_encode {α : Type} (rd : List Nat → DOutcome (α × List Nat))
    (enc : α → List Nat) (l : List α) (r : List Nat)
    (h : ∀ a ∈ l, ∀ r2 : List Nat, rd (enc a ++ r2) = .ok (a, r2)) :
    readN rd l.length ((l.map enc).flatten ++ r) = .ok (l, r) := by
  induction l with
  | nil => simp [readN]
  | cons a as ih =>
      have ha := h a (List.mem_cons_self a as)
      simp only [List.map_cons, List.flatten_cons, List.length_cons, List.append_assoc, readN]
      rw [ha]
      simp only [ok_bind]
      rw [ih (fun b hb r2 => h b (List.mem_cons_of_mem a hb) r2)]
      rfl

/-! ## Per-kind body inversion lemmas: the byte-order-`e` body of a
machine-representable value reads back to the value, leaving the tail. -/

theorem readCoordBytes_mk (e : Endian) (c : Coord) (h : c.wf) (r : List Nat) :
    readCoordBytes e (mkCoordBody e c ++ r) = .ok (c, r) := by
  obtain ⟨hx, hy⟩ := h
  simp only [readCoordBytes, mkCoordBody, List.append_assoc]
  rw [readF64_bytes e _ hx]
  simp only [ok_bind]
  rw [readF64_bytes e _ hy]
  rfl

theorem readLineStringBytes_mk (e : Endian) (l : LineString) (h : l.wf) (r : List Nat) :
    readLineStringBytes e (mkLineStringBody e l ++ r) = .ok (l, r) := by
  obtain ⟨hn, hc⟩ := h
  simp only [readLineStringBytes, mkLineStringBody, List.append_assoc]
  rw [readU32_bytes e _ hn]
  simp only [ok_bind]
  rw [readN_encode _ _ _ _ (fun c hm r2 => readCoordBytes_mk e c (hc c hm) r2)]
  rfl

theorem readPolygonBytes_mk (e : Endian) (p : Polygon) (h : p.wf) (r : List Nat) :
    readPolygonBytes e (mkPolygonBody e p ++ r) = .ok (p, r) := by
  obtain ⟨hn, hext, hints⟩ := h
  simp only [readPolygonBytes, mkPolygonBody, List.append_assoc]
  rw [readU32_bytes e _ hn]
  simp only [ok_bind]
  rw [readLineStringBytes_mk e _ hext]
  simp only [ok_bind, Nat.succ_ne_zero, if_false, Nat.add_sub_cancel]
  rw [readN_encode _ _ _ _ (fun rg hm r2 => readLineStringBytes_mk e rg (hints rg hm) r2)]
  rfl

theorem readMultiPointBytes_mk (e : Endian) (m : MultiPoint) (h : wfMultiPoint m)
    (r : List Nat) : readMultiPointBytes e (mkMultiPointBody e m ++ r) = .ok (m, r) := by
  obtain ⟨hn, hc⟩ := h
  simp only [readMultiPointBytes, mkMultiPointBody, List.append_assoc]
  rw [readU32_bytes e _ hn]
  simp only [ok_bind]
  exact readN_encode _ _ _ _ (fun c hm r2 => readCoordBytes_mk e c (hc c hm) r2)

theorem readMultiLineStringBytes_mk (e : Endian) (m : MultiLineString)
    (h : wfMultiLineString m) (r : List Nat) :
    readMultiLineStringBytes e (mkMultiLineStringBody e m ++ r) = .ok (m, r) := by
  obtain ⟨hn, hc⟩ := h
  simp only [readMultiLineStringBytes, mkMultiLineStringBody, List.append_assoc]
  rw [readU32_bytes e _ hn]
  simp only [ok_bind]
  exact readN_encode _ _ _ _ (fun l hm r2 => readLineStringBytes_mk e l (hc l hm) r2)

theorem readMultiPolygonBytes_mk (e : Endian) (m : MultiPolygon)
    (h : wfMultiPolygon m) (r : List Nat) :
    readMultiPolygonBytes e (mkMultiPolygonBody e m ++ r) = .ok (m, r) := by
  obtain ⟨hn, hc⟩ := h
  simp only [readMultiPolygonBytes, mkMultiPolygonBody, List.append_assoc]
  rw [readU32_bytes e _ hn]
  simp only [ok_bind]
  exact readN_encode _ _ _ _ (fun p hm r2 => readPolygonBytes_mk e p (hc p hm) r2)

theorem readPointZBytes_mk (e : Endian) (p : GPKGPointZ) (h : p.wf) (r : List Nat) :
    readPointZBytes e (mkPointZBody e p ++ r) = .ok (p, r) := by
  obtain ⟨hx, hy, hz⟩ := h
  simp only [readPointZBytes, mkPointZBody, List.append_assoc]
  rw [readF64_bytes e _ hx]
  simp only [ok_bind]
  rw [readF64_bytes e _ hy]
  simp only [ok_bind]
  rw [readF64_bytes e _ hz]
  rfl

theorem readLineStringZBytes_mk (e : Endian) (l : GPKGLineStringZ)
    (h : wfLineStringZ l) (r : List Nat) :
    readLineStringZBytes e (mkLineStringZBody e l ++ r) = .ok (l, r) := by
  obtain ⟨hn, hp⟩ := h
  simp only [readLineStringZBytes, mkLineStringZBody, List.append_assoc]
  rw [readU32_bytes e _ hn]
  simp only [ok_bind]
  exact readN_encode _ _ _ _ (fun p hm r2 => readPointZBytes_mk e p (hp p hm) r2)

/-! ## Tagged-reader and header inversion lemmas -/

/-- The typed `read_from_wkb` accepts the tagged encoding of its own type code
in either byte order and hands the body reader the remaining stream. -/
theorem readFullWKB_mk {α : Type} (code : Nat) (hc : code < 2 ^ 32)
    (readBody : Endian → List Nat → DOutcome (α × List Nat)) (e : Endian)
    (body r : List Nat) (a : α)
    (hb : readBody e (body ++ r) = .ok (a, r)) :
    readFullWKB code readBody (mkTagged e code body ++ r) = .ok (a, r) := by
  simp only [readFullWKB, mkTagged, List.cons_append, List.append_assoc]
  cases e <;>
    simp only [markerByte, readU8, ok_bind, readEndianTag, readU32_bytes _ _ hc,
      ne_eq, not_true_eq_false, if_neg, if_false, ite_self, hb]

/-- Decoding a header-prefixed buffer whose flags byte is the writer's
`0b00000001` runs the body reader at offset 8 and keeps its value. -/
theorem fromWKB_header {α : Type} (readBody : List Nat → DOutcome (α × List Nat))
    (body : List Nat) :
    fromWKB readBody (gpkgHeader ++ body) = runBody readBody body := by
  have e1 : gpkgHeader ++ body
      = 0x47 :: 0x50 :: 0x00 :: 0x01 :: 0xE6 :: 0x10 :: 0x00 :: 0x00 :: body := rfl
  rw [e1]
  simp only [fromWKB, List.getElem?_cons_succ, List.getElem?_cons_zero]
  norm_num [GPKGGeomFlags.fromByte, envelopeByteLength, List.length_cons]
  rw [if_neg (by omega), if_neg (by omega)]

/-- A geometry is basic when it is one of the six non-collection kinds; the
predicate also carries the machine-width side conditions. -/
@[reducible] def Geometry.basicWf : Geometry → Prop
  | .point p => p.wf
  | .lineString l => l.wf
  | .polygon p => p.wf
  | .multiPoint m => wfMultiPoint m
  | .multiLineString m => wfMultiLineString m
  | .multiPolygon m => wfMultiPolygon m
  | .geometryCollection _ => False

/-- The polymorphic reader accepts the tagged encoding of any basic geometry
in either byte order. -/
theorem readGeometryWKB_basic (e : Endian) (g : Geometry) (h : g.basicWf) (r : List Nat) :
    readGeometryWKB (mkTaggedGeometry e g ++ r) = .ok (g, r) := by
  cases g with
  | geometryCollection gs => exact absurd h (by simp [Geometry.basicWf])
  | point p =>
      simp only [readGeometryWKB, readGeometryWKBF, mkTaggedGeometry, mkTagged,
        List.cons_append, List.append_assoc]
      cases e <;>
        simp only [markerByte, readU8, ok_bind, readEndianTag,
          readU32_bytes _ 1 (by norm_num), readCoordBytes_mk _ p h, pure_eq_ok]
  | lineString l =>
      simp only [readGeometryWKB, readGeometryWKBF, mkTaggedGeometry, mkTagged,
        List.cons_append, List.append_assoc]
      cases e <;>
        simp only [markerByte, readU8, ok_bind, readEndianTag,
          readU32_bytes _ 2 (by norm_num), readLineStringBytes_mk _ l h, pure_eq_ok]
  | polygon p =>
      simp only [readGeometryWKB, readGeometryWKBF, mkTaggedGeometry, mkTagged,
        List.cons_append, List.append_assoc]
      cases e <;>
        simp only [markerByte, readU8, ok_bind, readEndianTag,
          readU32_bytes _ 3 (by norm_num), readPolygonBytes_mk _ p h, pure_eq_ok]
  | multiPoint m =>
      simp only [readGeometryWKB, readGeometryWKBF, mkTaggedGeometry, mkTagged,
        List.cons_append, List.append_assoc]
      cases e <;>
        simp only [markerByte, readU8, ok_bind, readEndianTag,
          readU32_bytes _ 4 (by norm_num), readMultiPointBytes_mk _ m h, pure_eq_ok]
  | multiLineString m =>
      simp only [readGeometryWKB, readGeometryWKBF, mkTaggedGeometry, mkTagged,
        List.cons_append, List.append_assoc]
      cases e <;>
        simp only [markerByte, readU8, ok_bind, readEndianTag,
          readU32_bytes _ 5 (by norm_num), readMultiLineStringBytes_mk _ m h, pure_eq_ok]
  | multiPolygon m =>
      simp only [readGeometryWKB, readGeometryWKBF, mkTaggedGeometry, mkTagged,
        List.cons_append, List.append_assoc]
      cases e <;>
        simp only [markerByte, readU8, ok_bind, readEndianTag,
          readU32_bytes _ 6 (by norm_num), readMultiPolygonBytes_mk _ m h, pure_eq_ok]

/-- The polymorphic reader rejects every type code outside 1..7 with
`UnsupportedGeometryType`, in either byte order. -/
theorem readGeometryWKB_reject (e : Endian) (t : Nat) (ht : t < 2 ^ 32)
    (h7 : t ∉ ([1, 2, 3, 4, 5, 6, 7] : List Nat)) (r : List Nat) :
    readGeometryWKB (markerByte e :: (u32bytes e t ++ r)) = .err .UnsupportedGeometryType := by
  simp only [readGeometryWKB, readGeometryWKBF, List.cons_append, List.append_assoc]
  cases e <;>
    · simp only [markerByte, readU8, ok_bind, readEndianTag, readU32_bytes _ t ht]
      split <;> simp_all

/-! ## Helper lemmas for the claim theorems -/

theorem runBody_ok {α : Type} (rb : List Nat → DOutcome (α × List Nat))
    (s : List Nat) (a : α) (rest : List Nat) (h : rb s = .ok (a, rest)) :
    runBody rb s = .ok a := by
  simp [runBody, h]

/-- Round-trip through the header codec and a typed `full_wkb!` reader. -/
theorem roundtripAux {α : Type} (code : Nat) (hc : code < 2 ^ 32)
    (readBody : Endian → List Nat → DOutcome (α × List Nat))
    (body : List Nat) (a : α)
    (hb : readBody .little (body ++ []) = .ok (a, [])) :
    fromWKB (readFullWKB code readBody) (gpkgHeader ++ mkTagged .little code body)
      = .ok a := by
  rw [fromWKB_header]
  apply runBody_ok
  rw [← List.append_nil (mkTagged .little code body)]
  exact readFullWKB_mk code hc readBody .little body [] a hb

theorem take8_header (x : List Nat) : (gpkgHeader ++ x).take 8 = gpkgHeader := by
  have h : gpkgHeader.length = 8 := rfl
  rw [← h, List.take_left]

/-! ## Claim C1: encode/decode round-trip -/

/-- C1 (amended to the eight non-collection kinds, under the machine-width
side conditions inherent to `f64`/`u32` fields): for Point, LineString,
Polygon, MultiPoint, MultiLineString, MultiPolygon, PointZ and LineStringZ,
decoding the buffer produced by `to_wkb` through `from_wkb` succeeds and
returns a value bit-exactly equal to the input — same f64 bit patterns, same
point order, same ring and element order. The GeometryCollection kind is
excluded: its writer emits no collection header, so its own reader rejects
the encoding (see the counterexample). -/
theorem roundtrip_noncollection :
    (∀ p : Coord, p.wf → fromWKB readPointWKB (toWKBPoint p) = .ok p)
  ∧ (∀ l : LineString, l.wf → fromWKB readLineStringWKB (toWKBLineString l) = .ok l)
  ∧ (∀ pg : Polygon, pg.wf → fromWKB readPolygonWKB (toWKBPolygon pg) = .ok pg)
  ∧ (∀ m : MultiPoint, wfMultiPoint m →
      fromWKB readMultiPointWKB (toWKBMultiPoint m) = .ok m)
  ∧ (∀ m : MultiLineString, wfMultiLineString m →
      fromWKB readMultiLineStringWKB (toWKBMultiLineString m) = .ok m)
  ∧ (∀ m : MultiPolygon, wfMultiPolygon m →
      fromWKB readMultiPolygonWKB (toWKBMultiPolygon m) = .ok m)
  ∧ (∀ p : GPKGPointZ, p.wf → fromWKB readPointZWKB (toWKBPointZ p) = .ok p)
  ∧ (∀ l : GPKGLineStringZ, wfLineStringZ l →
      fromWKB readLineStringZWKB (toWKBLineStringZ l) = .ok l) :=
  ⟨fun p h => roundtripAux 1 (by norm_num) readCoordBytes _ p
      (readCoordBytes_mk .little p h []),
   fun l h => roundtripAux 2 (by norm_num) readLineStringBytes _ l
      (readLineStringBytes_mk .little l h []),
   fun pg h => roundtripAux 3 (by norm_num) readPolygonBytes _ pg
      (readPolygonBytes_mk .little pg h []),
   fun m h => roundtripAux 4 (by norm_num) readMultiPointBytes _ m
      (readMultiPointBytes_mk .little m h []),
   fun m h => roundtripAux 5 (by norm_num) readMultiLineStringBytes _ m
      (readMultiLineStringBytes_mk .little m h []),
   fun m h => roundtripAux 6 (by norm_num) readMultiPolygonBytes _ m
      (readMultiPolygonBytes_mk .little m h []),
   fun p h => roundtripAux 1001 (by norm_num) readPointZBytes _ p
      (readPointZBytes_mk .little p h []),
   fun l h => roundtripAux 1002 (by norm_num) readLineStringZBytes _ l
      (readLineStringZBytes_mk .little l h [])⟩

/-- Witness for C1: the round-trip theorem applied to concrete inputs (the
point -105.0, 40.0 by bit pattern, and a two-point linestring). -/
theorem roundtrip_noncollection_witness :
    fromWKB readPointWKB (toWKBPoint ⟨0xC05A400000000000, 0x4044000000000000⟩)
      = .ok ⟨0xC05A400000000000, 0x4044000000000000⟩
  ∧ fromWKB readLineStringWKB (toWKBLineString ⟨[⟨1, 2⟩, ⟨3, 4⟩]⟩)
      = .ok ⟨[⟨1, 2⟩, ⟨3, 4⟩]⟩ :=
  ⟨roundtrip_noncollection.1 _ (by decide),
   roundtrip_noncollection.2.1 _ (by decide)⟩

/-- Counterexample to C1 as stated: the GeometryCollection kind does not
round-trip. Encoding the singleton collection succeeds and produces exactly
the bare tagged point encoding behind the header (no collection marker, type
code, or count), which the GeometryCollection reader then rejects with
`UnsupportedGeometryType` instead of returning the collection. -/
theorem roundtrip_geometryCollection_counterexample :
    toWKBGeometryCollection [Geometry.point ⟨0, 0⟩]
      = .ok (gpkgHeader ++ writePointWKB ⟨0, 0⟩)
  ∧ fromWKB readGeometryCollectionWKB (gpkgHeader ++ writePointWKB ⟨0, 0⟩)
      = .err .UnsupportedGeometryType
  ∧ (DOutcome.err Error.UnsupportedGeometryType
      ≠ (DOutcome.ok [Geometry.point ⟨0, 0⟩] : DOutcome (List Geometry))) :=
  ⟨rfl, rfl, fun h => DOutcome.noConfusion h⟩

/-! ## Claim C2: cross-endianness decoding -/

/-- C2 (amended): a hand-built big-endian WKB body and the corresponding
little-endian body decode to the same geometry through the typed entry points
of the eight non-collection kinds, and through the polymorphic reader for all
six basic kinds; for GeometryCollection the typed entry point handles both
byte orders when the members are basic (demonstrated on a point member), but
the polymorphic reader reads the member count little-endian regardless of the
declared order, so big-endian collections mis-decode through it (see the
counterexample). -/
theorem cross_endian_decode :
    (∀ (e : Endian) (p : Coord) (r : List Nat), p.wf →
        readPointWKB (mkTagged e 1 (mkCoordBody e p) ++ r) = .ok (p, r))
  ∧ (∀ (e : Endian) (l : LineString) (r : List Nat), l.wf →
        readLineStringWKB (mkTagged e 2 (mkLineStringBody e l) ++ r) = .ok (l, r))
  ∧ (∀ (e : Endian) (pg : Polygon) (r : List Nat), pg.wf →
        readPolygonWKB (mkTagged e 3 (mkPolygonBody e pg) ++ r) = .ok (pg, r))
  ∧ (∀ (e : Endian) (m : MultiPoint) (r : List Nat), wfMultiPoint m →
        readMultiPointWKB (mkTagged e 4 (mkMultiPointBody e m) ++ r) = .ok (m, r))
  ∧ (∀ (e : Endian) (m : MultiLineString) (r : List Nat), wfMultiLineString m →
        readMultiLineStringWKB (mkTagged e 5 (mkMultiLineStringBody e m) ++ r)
          = .ok (m, r))
  ∧ (∀ (e : Endian) (m : MultiPolygon) (r : List Nat), wfMultiPolygon m →
        readMultiPolygonWKB (mkTagged e 6 (mkMultiPolygonBody e m) ++ r) = .ok (m, r))
  ∧ (∀ (e : Endian) (p : GPKGPointZ) (r : List Nat), p.wf →
        readPointZWKB (mkTagged e 1001 (mkPointZBody e p) ++ r) = .ok (p, r))
  ∧ (∀ (e : Endian) (l : GPKGLineStringZ) (r : List Nat), wfLineStringZ l →
        readLineStringZWKB (mkTagged e 1002 (mkLineStringZBody e l) ++ r) = .ok (l, r))
  ∧ (∀ (e : Endian) (g : Geometry) (r : List Nat), g.basicWf →
        readGeometryWKB (mkTaggedGeometry e g ++ r) = .ok (g, r))
  ∧ (readGeometryCollectionWKB
        (mkTaggedGeometry .big (.geometryCollection [.point ⟨0, 0⟩]))
        = .ok ([.point ⟨0, 0⟩], [])
      ∧ readGeometryCollectionWKB
        (mkTaggedGeometry .little (.geometryCollection [.point ⟨0, 0⟩]))
        = .ok ([.point ⟨0, 0⟩], [])) :=
  ⟨fun e p r h => readFullWKB_mk 1 (by norm_num) _ e _ r p (readCoordBytes_mk e p h r),
   fun e l r h => readFullWKB_mk 2 (by norm_num) _ e _ r l
      (readLineStringBytes_mk e l h r),
   fun e pg r h => readFullWKB_mk 3 (by norm_num) _ e _ r pg
      (readPolygonBytes_mk e pg h r),
   fun e m r h => readFullWKB_mk 4 (by norm_num) _ e _ r m
      (readMultiPointBytes_mk e m h r),
   fun e m r h => readFullWKB_mk 5 (by norm_num) _ e _ r m
      (readMultiLineStringBytes_mk e m h r),
   fun e m r h => readFullWKB_mk 6 (by norm_num) _ e _ r m
      (readMultiPolygonBytes_mk e m h r),
   fun e p r h => readFullWKB_mk 1001 (by norm_num) _ e _ r p
      (readPointZBytes_mk e p h r),
   fun e l r h => readFullWKB_mk 1002 (by norm_num) _ e _ r l
      (readLineStringZBytes_mk e l h r),
   fun e g r h => readGeometryWKB_basic e g h r,
   ⟨rfl, rfl⟩⟩

/-- Witness for C2: a big-endian point body decodes to the same point as the
little-endian one. -/
theorem cross_endian_decode_witness :
    readPointWKB (mkTagged .big 1 (mkCoordBody .big ⟨5, 6⟩) ++ []) = .ok (⟨5, 6⟩, [])
  ∧ readPointWKB (mkTagged .little 1 (mkCoordBody .little ⟨5, 6⟩) ++ []) = .ok (⟨5, 6⟩, []) :=
  ⟨cross_endian_decode.1 .big ⟨5, 6⟩ [] (by decide),
   cross_endian_decode.1 .little ⟨5, 6⟩ [] (by decide)⟩

/-- Counterexample to C2 as stated: through the polymorphic
`Geometry::read_from_wkb`, the little-endian encoding of the collection
containing one point decodes correctly, but the big-endian encoding of the
same geometry fails, because the member count (bytes 00 00 00 01) is read
little-endian as 16777216 and the stream runs out after the first member. -/
theorem cross_endian_collection_counterexample :
    readGeometryWKB (mkTaggedGeometry .little (.geometryCollection [.point ⟨0, 0⟩]))
      = .ok (.geometryCollection [.point ⟨0, 0⟩], [])
  ∧ readGeometryWKB (mkTaggedGeometry .big (.geometryCollection [.point ⟨0, 0⟩]))
      = .err .GeomDecodeError
  ∧ (DOutcome.err Error.GeomDecodeError
      ≠ (DOutcome.ok (Geometry.geometryCollection [.point ⟨0, 0⟩], ([] : List Nat))
          : DOutcome (Geometry × List Nat))) :=
  ⟨rfl, rfl, fun h => DOutcome.noConfusion h⟩

/-! ## Claim C3: totality of decoding over malformed input -/

/-- C3 evaluation: `from_wkb` panics — it does not return an error — on a
buffer whose flags byte carries envelope code 5 (flags byte 0x0A with an
otherwise valid point blob), and on a buffer shorter than the minimum header
(here 3 bytes, where `bytes[3]` is out of bounds).  This holds for the
`from_wkb` of every geometry type, since the header path is shared. -/
theorem fromWKB_panics_on_malformed_header :
    ∀ {α : Type} (readBody : List Nat → DOutcome (α × List Nat)),
      fromWKB readBody [0x47, 0x50, 0x00, 0x0A, 0xE6, 0x10, 0x00, 0x00,
          0x01, 0x01, 0x00, 0x00, 0x00,
          0, 0, 0, 0, 0, 0, 0, 0, 0, 0, 0, 0, 0, 0, 0, 0] = .panic
    ∧ fromWKB readBody [0x47, 0x50, 0x00] = .panic :=
  fun _ => ⟨rfl, rfl⟩

/-! ## Claim C4: GeometryCollection writer framing -/

/-- C4 evaluation: the GeometryCollection writer emits the bare concatenated
member encodings — for the singleton collection, exactly the tagged point
bytes — with no collection marker byte, no type code 7, and no member count;
this differs from the spec-conformant count-prefixed framing, and the
GeometryCollection reader rejects the writer's own output with
`UnsupportedGeometryType` (it finds type code 1 where it requires 7). -/
theorem geometryCollection_writer_framing :
    writeGeometryCollectionWKB [Geometry.point ⟨0, 0⟩] = .ok (writePointWKB ⟨0, 0⟩)
  ∧ writePointWKB ⟨0, 0⟩
      ≠ mkTaggedGeometry .little (.geometryCollection [.point ⟨0, 0⟩])
  ∧ readGeometryCollectionWKB (writePointWKB ⟨0, 0⟩) = .err .UnsupportedGeometryType :=
  ⟨rfl, by decide, rfl⟩

/-! ## Claim C5: type mismatch rejection -/

/-- C5 (amended): every type-specific entry point fails on a buffer whose
type code differs from the statically expected one — it never returns a
decoded geometry of another kind — but the error is
`Error.UnsupportedGeometryType`: the crate's error enum has no separate
WrongType variant, so a mismatched supported code and an unknown code are
reported identically.  The same holds for the typed GeometryCollection
reader. -/
theorem typed_mismatch_rejected :
    (∀ {α : Type} (readBody : Endian → List Nat → DOutcome (α × List Nat))
        (code t : Nat) (e : Endian) (r : List Nat), t < 2 ^ 32 → t ≠ code →
        readFullWKB code readBody (markerByte e :: (u32bytes e t ++ r))
          = .err .UnsupportedGeometryType)
  ∧ (∀ (t : Nat) (e : Endian) (r : List Nat), t < 2 ^ 32 → t ≠ 7 →
        readGeometryCollectionWKB (markerByte e :: (u32bytes e t ++ r))
          = .err .UnsupportedGeometryType) := by
  constructor
  · intro α readBody code t e r ht hne
    simp only [readFullWKB]
    cases e <;>
      simp [markerByte, readU8, readEndianTag, readU32_bytes _ t ht, hne]
  · intro t e r ht hne
    simp only [readGeometryCollectionWKB]
    cases e <;>
      simp [markerByte, readU8, readEndianTag, readU32_bytes _ t ht, hne]

/-- Witness for C5: decoding a Polygon-coded buffer (type code 3) through the
Point entry point fails with `UnsupportedGeometryType`. -/
theorem typed_mismatch_rejected_witness :
    readFullWKB 1 readCoordBytes (markerByte .little :: (u32bytes .little 3 ++ []))
      = .err .UnsupportedGeometryType :=
  typed_mismatch_rejected.1 readCoordBytes 1 3 .little [] (by decide) (by decide)

/-- Counterexample to C5 as stated: the claim requires a WrongType error kind,
distinct per the spec's taxonomy from the unknown-code kind, but decoding a
Polygon-coded buffer and decoding a code-99 buffer through the Point entry
point return the identical `Error.UnsupportedGeometryType` — the crate has no
WrongType variant at all. -/
theorem typed_mismatch_counterexample :
    readPointWKB (mkTagged .little 3
        (mkPolygonBody .little ⟨⟨[⟨0, 0⟩, ⟨1, 0⟩, ⟨0, 1⟩, ⟨0, 0⟩]⟩, []⟩))
      = .err .UnsupportedGeometryType
  ∧ readPointWKB (mkTagged .little 99 []) = .err .UnsupportedGeometryType :=
  ⟨rfl, rfl⟩

/-! ## Claim C6: the polymorphic dispatch table -/

/-- C6 (amended): the polymorphic reader accepts exactly the type codes 1-7:
every other code — including the Z-extension codes 1001 and 1002, which only
the typed GPKGPointZ/GPKGLineStringZ entry points accept — yields
`UnsupportedGeometryType`; codes 1-6 decode any well-formed basic geometry in
either byte order, and code 7 is accepted (shown on a little-endian
collection). -/
theorem polymorphic_dispatch :
    (∀ (e : Endian) (t : Nat) (r : List Nat), t < 2 ^ 32 →
        t ∉ ([1, 2, 3, 4, 5, 6, 7] : List Nat) →
        readGeometryWKB (markerByte e :: (u32bytes e t ++ r))
          = .err .UnsupportedGeometryType)
  ∧ (∀ (e : Endian) (g : Geometry) (r : List Nat), g.basicWf →
        readGeometryWKB (mkTaggedGeometry e g ++ r) = .ok (g, r))
  ∧ readGeometryWKB (mkTaggedGeometry .little (.geometryCollection []))
      = .ok (.geometryCollection [], []) :=
  ⟨fun e t r ht h7 => readGeometryWKB_reject e t ht h7 r,
   fun e g r h => readGeometryWKB_basic e g h r,
   rfl⟩

/-- Witness for C6: code 99 is rejected and a concrete point is accepted. -/
theorem polymorphic_dispatch_witness :
    readGeometryWKB (markerByte .little :: (u32bytes .little 99 ++ []))
      = .err .UnsupportedGeometryType
  ∧ readGeometryWKB (mkTaggedGeometry .little (.point ⟨7, 8⟩) ++ [])
      = .ok (.point ⟨7, 8⟩, []) :=
  ⟨polymorphic_dispatch.1 .little 99 [] (by decide) (by decide),
   polymorphic_dispatch.2.1 .little (.point ⟨7, 8⟩) [] (by decide)⟩

/-- Counterexample to C6 as stated: a valid PointZ-coded buffer (type code
1001) is rejected by the polymorphic reader with `UnsupportedGeometryType`,
while the typed GPKGPointZ entry point accepts the very same bytes; likewise
code 1002. -/
theorem polymorphic_rejects_z_codes :
    readGeometryWKB ((1 : Nat) :: (u32le 1001 ++ mkPointZBody .little ⟨0, 0, 0⟩))
      = .err .UnsupportedGeometryType
  ∧ readPointZWKB ((1 : Nat) :: (u32le 1001 ++ mkPointZBody .little ⟨0, 0, 0⟩))
      = .ok (⟨0, 0, 0⟩, [])
  ∧ readGeometryWKB ((1 : Nat) :: (u32le 1002 ++ mkLineStringZBody .little []))
      = .err .UnsupportedGeometryType :=
  ⟨rfl, rfl, rfl⟩

/-! ## Claim C7: the concrete point encoding -/

/-- The IEEE-754 bit patterns of -105.0 (0xC05A400000000000) and 40.0
(0x4044000000000000). -/
def pointNeg105x40 : Coord := ⟨0xC05A400000000000, 0x4044000000000000⟩

/-- C7 (amended): encoding the point (-105.0, 40.0) with the fixed SRS 4326
produces header 47 50 00 01, E6 10 00 00, body 01 01 00 00 00, then
00 00 00 00 00 40 5A C0 (-105.0 little-endian; the claim's 00 00 00 00 00 00
59 C0 is the encoding of -100.0, not -105.0) and 00 00 00 00 00 00 44 40
(40.0 little-endian), and nothing else. -/
theorem point_encoding_bytes :
    toWKBPoint pointNeg105x40
      = [0x47, 0x50, 0x00, 0x01, 0xE6, 0x10, 0x00, 0x00,
         0x01, 0x01, 0x00, 0x00, 0x00,
         0x00, 0x00, 0x00, 0x00, 0x00, 0x40, 0x5A, 0xC0,
         0x00, 0x00, 0x00, 0x00, 0x00, 0x00, 0x44, 0x40] := rfl

/-- Counterexample to C7 as stated: the claimed byte sequence (with x-double
bytes 00 00 00 00 00 00 59 C0) is not what the encoder produces — those eight
bytes are the little-endian IEEE-754 encoding of -100.0, whereas the encoder
writes the bytes of -105.0, which are 00 00 00 00 00 40 5A C0. -/
theorem point_encoding_bytes_counterexample :
    toWKBPoint pointNeg105x40
      ≠ [0x47, 0x50, 0x00, 0x01, 0xE6, 0x10, 0x00, 0x00,
         0x01, 0x01, 0x00, 0x00, 0x00,
         0x00, 0x00, 0x00, 0x00, 0x00, 0x00, 0x59, 0xC0,
         0x00, 0x00, 0x00, 0x00, 0x00, 0x00, 0x44, 0x40] := by decide

/-! ## Claim C10: the fixed header prefix -/

/-- C10: every buffer `to_wkb` produces — for every supported kind, and for
the Geometry and GeometryCollection wrappers whenever encoding succeeds —
starts with exactly the eight bytes 47 50 00 01 E6 10 00 00: magic "GP",
version 0, flags 0x01, and SRS id 4326 little-endian, regardless of the
geometry; the encoder takes no SRS input. -/
theorem header_bytes_fixed :
    gpkgHeader = [0x47, 0x50, 0x00, 0x01, 0xE6, 0x10, 0x00, 0x00]
  ∧ (∀ p : Coord, (toWKBPoint p).take 8 = gpkgHeader)
  ∧ (∀ l : LineString, (toWKBLineString l).take 8 = gpkgHeader)
  ∧ (∀ pg : Polygon, (toWKBPolygon pg).take 8 = gpkgHeader)
  ∧ (∀ m : MultiPoint, (toWKBMultiPoint m).take 8 = gpkgHeader)
  ∧ (∀ m : MultiLineString, (toWKBMultiLineString m).take 8 = gpkgHeader)
  ∧ (∀ m : MultiPolygon, (toWKBMultiPolygon m).take 8 = gpkgHeader)
  ∧ (∀ p : GPKGPointZ, (toWKBPointZ p).take 8 = gpkgHeader)
  ∧ (∀ l : GPKGLineStringZ, (toWKBLineStringZ l).take 8 = gpkgHeader)
  ∧ (∀ (gs : List Geometry) (b : List Nat),
        toWKBGeometryCollection gs = .ok b → b.take 8 = gpkgHeader)
  ∧ (∀ (g : Geometry) (b : List Nat),
        toWKBGeometry g = .ok b → b.take 8 = gpkgHeader) := by
  refine ⟨rfl, fun _ => take8_header _, fun _ => take8_header _, fun _ => take8_header _,
    fun _ => take8_header _, fun _ => take8_header _, fun _ => take8_header _,
    fun _ => take8_header _, fun _ => take8_header _, ?_, ?_⟩
  · intro gs b h
    cases e : writeGeometryCollectionWKB gs with
    | ok bod =>
        simp only [toWKBGeometryCollection, e, Except.ok.injEq] at h
        rw [← h]
        exact take8_header bod
    | error er => simp [toWKBGeometryCollection, e] at h
  · intro g b h
    cases e : g.writeAsWKB with
    | ok bod =>
        simp only [toWKBGeometry, e, Except.ok.injEq] at h
        rw [← h]
        exact take8_header bod
    | error er => simp [toWKBGeometry, e] at h

/-- Witness for C10: the hypothesis-bearing conjunct applied to the empty
collection, whose encoding is exactly the bare header. -/
theorem header_bytes_fixed_witness :
    toWKBGeometryCollection [] = .ok [0x47, 0x50, 0x00, 0x01, 0xE6, 0x10, 0x00, 0x00]
  ∧ ([0x47, 0x50, 0x00, 0x01, 0xE6, 0x10, 0x00, 0x00] : List Nat).take 8 = gpkgHeader :=
  ⟨rfl, header_bytes_fixed.2.2.2.2.2.2.2.2.2.1 [] _ rfl⟩

/-! ## Claims C8 and C9: header handling -/

/-- The claim's `envelopeLength` mapping from the 3-bit envelope code:
0 maps to 0, 1 to 32, 2 to 48, 3 to 48, 4 to 64 bytes. -/
def envTable : Nat → Nat
  | 0 => 0
  | 1 => 32
  | 2 => 48
  | 3 => 48
  | 4 => 64
  | _ => 0

/-- A buffer without a fourth byte makes `from_wkb` panic on `bytes[3]`. -/
theorem fromWKB_eq_none {α : Type} (rb : List Nat → DOutcome (α × List Nat))
    (bytes : List Nat) (h3 : bytes[3]? = none) : fromWKB rb bytes = .panic := by
  simp [fromWKB, h3]

/-- Canonical form of `from_wkb` when the flags byte exists: its result
depends only on the envelope code (flags bits 1-3), the buffer length, and
the bytes from offset `8 + envTable code` on. -/
theorem fromWKB_eq_some {α : Type} (rb : List Nat → DOutcome (α × List Nat))
    (bytes : List Nat) (fb : Nat) (h3 : bytes[3]? = some fb) :
    fromWKB rb bytes =
      (if 4 < (fb >>> 1) &&& 7 then .panic
       else if bytes.length < 8 then .panic
       else if bytes.length < 8 + envTable ((fb >>> 1) &&& 7) then .panic
       else runBody rb (bytes.drop (8 + envTable ((fb >>> 1) &&& 7)))) := by
  have hb : (fb >>> 1) &&& 7 ≤ 7 := Nat.and_le_right
  set c := (fb >>> 1) &&& 7 with hc
  interval_cases c <;>
    simp [fromWKB, h3, GPKGGeomFlags.fromByte, ← hc, envelopeByteLength, envTable]

/-- The envelope code is a function of the low four flag bits. -/
theorem envCode_eq_of_mod16 (f1 f2 : Nat) (h : f1 % 16 = f2 % 16) :
    (f1 >>> 1) &&& 7 = (f2 >>> 1) &&& 7 := by
  have a1 := Nat.and_pow_two_sub_one_eq_mod (f1 >>> 1) 3
  have a2 := Nat.and_pow_two_sub_one_eq_mod (f2 >>> 1) 3
  norm_num at a1 a2
  rw [a1, a2, Nat.shiftRight_one, Nat.shiftRight_one]
  omega

/-- With a valid envelope code and a long enough buffer, `from_wkb` hands the
body reader the bytes from offset `8 + envelopeLength` on. -/
theorem fromWKB_skips_envelope {α : Type} (rb : List Nat → DOutcome (α × List Nat))
    (bytes : List Nat) (fb : Nat) (h3 : bytes[3]? = some fb)
    (hc : (fb >>> 1) &&& 7 ≤ 4)
    (hlen : 8 + envTable ((fb >>> 1) &&& 7) ≤ bytes.length) :
    fromWKB rb bytes = runBody rb (bytes.drop (8 + envTable ((fb >>> 1) &&& 7))) := by
  rw [fromWKB_eq_some rb bytes fb h3]
  rw [if_neg (by omega), if_neg (by omega), if_neg (by omega)]

/-- C8: for every buffer whose flags byte carries an envelope code in 0..4,
`from_wkb` begins reading the WKB body at offset `8 + envelopeLength(code)`
with the lengths 0, 32, 48, 48, 64; consequently a header declaring envelope
code 2 followed by any 48 filler bytes and a body decodes exactly as the body
alone would, for every choice of filler. -/
theorem envelope_skip :
    (∀ {α : Type} (readBody : List Nat → DOutcome (α × List Nat)) (bytes : List Nat)
        (fb : Nat), bytes[3]? = some fb → (fb >>> 1) &&& 7 ≤ 4 →
        8 + envTable ((fb >>> 1) &&& 7) ≤ bytes.length →
        fromWKB readBody bytes
          = runBody readBody (bytes.drop (8 + envTable ((fb >>> 1) &&& 7))))
  ∧ (∀ {α : Type} (readBody : List Nat → DOutcome (α × List Nat))
        (filler body : List Nat), filler.length = 48 →
        fromWKB readBody
            ([0x47, 0x50, 0x00, 0x05, 0xE6, 0x10, 0x00, 0x00] ++ (filler ++ body))
          = runBody readBody body) := by
  refine ⟨fun rb bytes fb h3 hc hlen => fromWKB_skips_envelope rb bytes fb h3 hc hlen, ?_⟩
  intro α rb filler body hfl
  have hlen : 8 + envTable ((5 >>> 1) &&& 7)
      ≤ ([0x47, 0x50, 0x00, 0x05, 0xE6, 0x10, 0x00, 0x00] ++ (filler ++ body)).length := by
    have he : envTable ((5 >>> 1) &&& 7) = 48 := rfl
    rw [he]
    simp [List.length_append, hfl]
  have h1 := fromWKB_skips_envelope rb
    ([0x47, 0x50, 0x00, 0x05, 0xE6, 0x10, 0x00, 0x00] ++ (filler ++ body)) 5 rfl
    (by decide) hlen
  rw [h1]
  have h2 : ([0x47, 0x50, 0x00, 0x05, 0xE6, 0x10, 0x00, 0x00]
      ++ (filler ++ body)).drop (8 + envTable ((5 >>> 1) &&& 7))
      = (filler ++ body).drop 48 := rfl
  rw [h2, ← hfl, List.drop_left]

/-- C9: the result of `from_wkb` depends only on the low four bits of the
flags byte, the buffer length, and the bytes from offset 8 on — two buffers
of equal length agreeing there (so possibly differing in the magic bytes, the
version byte, the SRS id bytes, and flags bits 4-7) decode to equal outcomes:
both succeed with equal geometries or fail alike. -/
theorem header_fields_ignored :
    ∀ {α : Type} (readBody : List Nat → DOutcome (α × List Nat)) (b1 b2 : List Nat),
      b1.length = b2.length →
      b1[3]?.map (fun fb => fb % 16) = b2[3]?.map (fun fb => fb % 16) →
      b1.drop 8 = b2.drop 8 →
      fromWKB readBody b1 = fromWKB readBody b2 := by
  intro α rb b1 b2 hlen h3 h8
  cases e1 : b1[3]? with
  | none =>
      cases e2 : b2[3]? with
      | none => rw [fromWKB_eq_none rb b1 e1, fromWKB_eq_none rb b2 e2]
      | some f2 => rw [e1, e2] at h3; simp at h3
  | some f1 =>
      cases e2 : b2[3]? with
      | none => rw [e1, e2] at h3; simp at h3
      | some f2 =>
          rw [fromWKB_eq_some rb b1 f1 e1, fromWKB_eq_some rb b2 f2 e2]
          rw [e1, e2] at h3
          simp at h3
          have hcode := envCode_eq_of_mod16 f1 f2 h3
          have hdrop : b1.drop (8 + envTable ((f2 >>> 1) &&& 7))
              = b2.drop (8 + envTable ((f2 >>> 1) &&& 7)) := by
            calc b1.drop (8 + envTable ((f2 >>> 1) &&& 7))
                = (b1.drop 8).drop (envTable ((f2 >>> 1) &&& 7)) := by
                  rw [List.drop_drop, Nat.add_comm]
              _ = (b2.drop 8).drop (envTable ((f2 >>> 1) &&& 7)) := by rw [h8]
              _ = b2.drop (8 + envTable ((f2 >>> 1) &&& 7)) := by
                  rw [List.drop_drop, Nat.add_comm]
          rw [hcode, hlen, hdrop]


/-- Witness for C8: envelope code 2 with 48 zero filler bytes before a point
body decodes like the bare body. -/
theorem envelope_skip_witness :
    fromWKB readPointWKB
        ([0x47, 0x50, 0x00, 0x05, 0xE6, 0x10, 0x00, 0x00]
          ++ (List.replicate 48 0 ++ writePointWKB ⟨9, 9⟩))
      = runBody readPointWKB (writePointWKB ⟨9, 9⟩)
  ∧ runBody readPointWKB (writePointWKB ⟨9, 9⟩) = .ok ⟨9, 9⟩ :=
  ⟨envelope_skip.2 readPointWKB (List.replicate 48 0) (writePointWKB ⟨9, 9⟩) rfl, rfl⟩

/-- Witness for C9: changing the magic bytes, the version byte, the SRS id
bytes, and flags bits 4-5 (0x01 versus 0x31) leaves the decode result
unchanged. -/
theorem header_fields_ignored_witness :
    fromWKB readPointWKB
        ([0x47, 0x50, 0x00, 0x01, 0xE6, 0x10, 0x00, 0x00] ++ writePointWKB ⟨1, 2⟩)
      = fromWKB readPointWKB
        ([0x00, 0x11, 0x22, 0x31, 0x44, 0x55, 0x66, 0x77] ++ writePointWKB ⟨1, 2⟩) :=
  header_fields_ignored readPointWKB _ _ rfl rfl rfl

end GpkgWKB
